import Mathlib

/-!
Shallow embedding of the Excel-Passport-to-JSON converter (`src/app.py`,
class `ExcelToJSONConverter`) and proofs about its loader and mapper.

Modelling conventions:
* A spreadsheet cell value (what `openpyxl` hands back with `data_only=True`)
  is `Cell`: Python `None`, a string, an `int`, or a `float`.  Python floats
  are modelled as exact rationals (`Rat`); the numeric facts proved here are
  exact in both models.  Boolean cells and non-finite float literals
  (`"inf"`, `"nan"`) are outside the model.
* A worksheet is a function from column letter and (1-based) row number to
  the cell value, `String → Nat → Cell`.
* The per-row dict `building_data` is an association list `Record`; the
  loader writes every key of `column_map` exactly once, so Python's
  `building_data[k]` and `building_data.get(k, 0)` agree on loaded records
  and are both modelled by `rget` (lookup with default `0`).
* Operations that can raise a Python `TypeError`/`ValueError` at the mapper
  level (`str(int(zip))` on a non-number, division on a non-number) are
  modelled with `Option`/`Except`.
-/

namespace Passport

/-- Cell values as delivered by openpyxl: Python None, str, int or float. -/
inductive Cell where
  | null : Cell
  | str (s : String) : Cell
  | int (n : Int) : Cell
  | float (q : Rat) : Cell
deriving DecidableEq, Repr

/-- Python `s.strip()`: surrounding whitespace removed.  (Python also strips
some non-ASCII unicode whitespace; outside the model.) -/
def pyStrip (s : String) : String :=
  String.mk (((s.toList.dropWhile Char.isWhitespace).reverse.dropWhile Char.isWhitespace).reverse)

/-- Python truthiness of a cell value (`bool(v)`). -/
def pyTruthy : Cell → Bool
  | .null => false
  | .str s => decide (s ≠ "")
  | .int n => decide (n ≠ 0)
  | .float q => decide (q ≠ 0)

/-- Python `v == 0` for a cell value: true exactly for numeric zero. -/
def pyEqZero : Cell → Bool
  | .int n => decide (n = 0)
  | .float q => decide (q = 0)
  | _ => false

/-- Whether a cell holds a number (int or float). -/
def isNum : Cell → Bool
  | .int _ => true
  | .float _ => true
  | _ => false

/-- Python `str(v)`.  For floats, the integral case renders as Python does
(`"5.0"`); the repr of non-integral rationals is an abstraction of Python's
shortest-roundtrip float repr (no claim depends on its exact text). -/
def pyStr : Cell → String
  | .null => "None"
  | .str s => s
  | .int n => toString n
  | .float q => if q.den = 1 then toString q.num ++ ".0" else toString q.num ++ "/" ++ toString q.den

/-- The numeric value of a cell, when it holds one. -/
def cellRat : Cell → Option Rat
  | .int n => some (n : Rat)
  | .float q => some q
  | _ => none

/-- Leading sign of a numeric literal: returns (isNegative, rest). -/
def parseSign : List Char → Bool × List Char
  | '+' :: cs => (false, cs)
  | '-' :: cs => (true, cs)
  | cs => (false, cs)

/-- Value of a digit string (most significant first). -/
def digitsVal (cs : List Char) : Nat :=
  cs.foldl (fun n c => n * 10 + (c.toNat - 48)) 0

/-- Mantissa of a float literal: digits, optionally with a decimal point;
returns its value as (numerator, denominator) and the unconsumed input.
At least one digit must be present on one side of the point. -/
def parseMantissa (cs : List Char) : Option ((Nat × Nat) × List Char) :=
  let ip := cs.takeWhile Char.isDigit
  let rest := cs.dropWhile Char.isDigit
  match rest with
  | '.' :: rest2 =>
    let fp := rest2.takeWhile Char.isDigit
    let rest3 := rest2.dropWhile Char.isDigit
    if ip.isEmpty && fp.isEmpty then none
    else some ((digitsVal ip * 10 ^ fp.length + digitsVal fp, 10 ^ fp.length), rest3)
  | _ =>
    if ip.isEmpty then none else some ((digitsVal ip, 1), rest)

/-- Python `float(s)` on a string, as an exact rational: optional surrounding
whitespace, optional sign, decimal mantissa, optional `e`/`E` exponent.
Returns `none` where Python raises `ValueError`.  (Python's acceptance of
`"inf"`, `"nan"` and underscore separators is outside the model.) -/
def parseFloat (s : String) : Option Rat :=
  let cs := (pyStrip s).toList
  let (neg, cs1) := parseSign cs
  match parseMantissa cs1 with
  | none => none
  | some ((n, d), rest) =>
    let signRat : Nat → Nat → Rat := fun nn dd =>
      if neg then -(mkRat nn dd) else mkRat nn dd
    match rest with
    | [] => some (signRat n d)
    | e :: rest2 =>
      if e = 'e' ∨ e = 'E' then
        let (eneg, rest3) := parseSign rest2
        if (!rest3.isEmpty) && rest3.all Char.isDigit then
          let ev := digitsVal rest3
          some (if eneg then signRat n (d * 10 ^ ev) else signRat (n * 10 ^ ev) d)
        else none
      else none

/-- Truncation toward zero, as Python `int()` on a float. -/
def ratTrunc (q : Rat) : Int :=
  if 0 ≤ q then q.floor else -((-q).floor)

/-- Python `int(s)` on a string: optional surrounding whitespace, optional
sign, decimal digits only.  `none` where Python raises. -/
def parsePyInt (s : String) : Option Int :=
  let cs := (pyStrip s).toList
  let (neg, cs1) := parseSign cs
  if (!cs1.isEmpty) && cs1.all Char.isDigit then
    some (if neg then -(digitsVal cs1 : Int) else (digitsVal cs1 : Int))
  else none

/-- Python `int(v)` on a cell value; `none` where Python raises `TypeError`
(`int(None)`) or `ValueError` (non-numeric string). -/
def pyIntCell : Cell → Option Int
  | .int n => some n
  | .float q => some (ratTrunc q)
  | .str s => parsePyInt s
  | .null => none

/-- Column-letter map of the loader (`column_map`, app.py lines 39-72). -/
def columnMap : List (String × String) :=
  [("customer", "B"), ("building_id", "C"), ("address", "D"), ("city", "E"),
   ("state", "F"), ("zip", "G"), ("building_type", "I"), ("total_sq_ft", "J"),
   ("cleanable_sq_ft", "K"), ("alternate_productivity", "M"),
   ("sun", "R"), ("mon", "S"), ("tue", "T"), ("wed", "U"),
   ("thu", "V"), ("fri", "W"), ("sat", "X"),
   ("additional_costs", "AB"),
   ("equipment_rental_1", "AH"), ("contract_terms_1", "AI"),
   ("equipment_rental_2", "AJ"), ("contract_terms_2", "AK"),
   ("wage_adjustment", "AO"),
   ("dp_sun", "AQ"), ("dp_mon", "AR"), ("dp_tue", "AS"), ("dp_wed", "AT"),
   ("dp_thu", "AU"), ("dp_fri", "AV"), ("dp_sat", "AW"),
   ("sup_sun", "AZ"), ("sup_mon", "BA"), ("sup_tue", "BB"), ("sup_wed", "BC"),
   ("sup_thu", "BD"), ("sup_fri", "BE"), ("sup_sat", "BF")]

/-- Fields defaulted to the empty string when the cell is `None`
(app.py line 107). -/
def stringFields : List String :=
  ["customer", "building_id", "address", "city", "state", "building_type"]

/-- Fields run through the numeric-coercion pass (app.py lines 118-122). -/
def numericFields : List String :=
  ["cleanable_sq_ft", "total_sq_ft", "zip", "alternate_productivity",
   "sun", "mon", "tue", "wed", "thu", "fri", "sat",
   "additional_costs", "wage_adjustment",
   "dp_sun", "dp_mon", "dp_tue", "dp_wed", "dp_thu", "dp_fri", "dp_sat",
   "sup_sun", "sup_mon", "sup_tue", "sup_wed", "sup_thu", "sup_fri", "sup_sat"]

/-- Per-field cleanup (app.py lines 105-115): `None` becomes `''` for the
string fields and `0` otherwise; strings are stripped except for
`building_type`, whose spacing is preserved; other values pass through. -/
def cleanupField (field : String) (v : Cell) : Cell :=
  match v with
  | .null => if field ∈ stringFields then .str "" else .int 0
  | .str s => if field = "building_type" then .str s else .str (pyStrip s)
  | v => v

/-- Numeric-coercion pass applied to one field value (app.py lines 124-131):
`''` becomes `0`; other strings are parsed with `float()`, defaulting to `0`
on `ValueError`; non-strings pass through. -/
def coerceNumeric : Cell → Cell
  | .str s =>
    if s = "" then .int 0
    else
      match parseFloat s with
      | some q => .float q
      | none => .int 0
  | v => v

/-- A loaded field value: cleanup, then numeric coercion when the field is in
the numeric list. -/
def fieldValue (field : String) (raw : Cell) : Cell :=
  let v := cleanupField field raw
  if field ∈ numericFields then coerceNumeric v else v

/-- The per-row dict `building_data`, as an association list in `column_map`
order. -/
abbrev Record := List (String × Cell)

/-- Dict access on a record.  Every `column_map` key is always present in a
loaded record, so Python's `building_data[k]` and `building_data.get(k, 0)`
coincide; the default matches the `.get(k, 0)` call sites. -/
def rget (rec : Record) (f : String) : Cell :=
  (List.lookup f rec).getD (Cell.int 0)

/-- One fully extracted row (app.py lines 98-131). -/
def buildRecord (sheet : String → Nat → Cell) (row : Nat) : Record :=
  columnMap.map (fun p => (p.1, fieldValue p.1 (sheet p.2 row)))

/-- Row acceptance test of the loader (app.py lines 81-96): customer cell
truthy; building-id cell truthy and non-blank after stripping; cleanable
square footage truthy and not `== 0`. -/
def rowAccepted (sheet : String → Nat → Cell) (row : Nat) : Bool :=
  pyTruthy (sheet "B" row) &&
  (pyTruthy (sheet "C" row) && decide (pyStrip (pyStr (sheet "C" row)) ≠ "")) &&
  (pyTruthy (sheet "K" row) && !(pyEqZero (sheet "K" row)))

/-- Row numbers visited by the scan loop (app.py line 78-79):
`row = 4; while row <= ws.max_row and row <= 100`. -/
def scannedRows (maxRow : Nat) : List Nat :=
  List.range' 4 (min maxRow 100 + 1 - 4)

/-- Row numbers that pass the acceptance test, in scan order. -/
def acceptedRows (sheet : String → Nat → Cell) (maxRow : Nat) : List Nat :=
  (scannedRows maxRow).filter (fun r => rowAccepted sheet r)

/-- The loader's `buildings_data` after a successful load of the sheet:
one full record per accepted row, in spreadsheet order. -/
def load_excel_data (sheet : String → Nat → Cell) (maxRow : Nat) : List Record :=
  (acceptedRows sheet maxRow).map (fun r => buildRecord sheet r)

/-- Customer name derived from the first accepted row
(app.py lines 133-144): `customer_name or "Unknown Customer"`. -/
def customerNameOf (rows : List Record) : String :=
  match rows with
  | [] => "Unknown Customer"
  | r :: _ => if pyTruthy (rget r "customer") then pyStr (rget r "customer") else "Unknown Customer"

/-- A week-keyed block of hour values (`schedule`, `dayporter_hours`,
`supervisor_hours` in app.py). -/
structure Week where
  sunday : Cell
  monday : Cell
  tuesday : Cell
  wednesday : Cell
  thursday : Cell
  friday : Cell
  saturday : Cell
deriving DecidableEq, Repr

/-- One equipment entry (app.py lines 175-183). -/
structure EquipmentEntry where
  equipmentType : Cell
  contractTerm : String
deriving DecidableEq, Repr

/-- One entry of the service's `inputs` array. -/
structure InputItem where
  itemName : String
  itemValue : Cell
deriving DecidableEq, Repr

/-- The `costAdjustments` block (app.py lines 220-223). -/
structure CostAdjustments where
  hourlyWageAdjustment : Cell
  weeklyAdditionalCosts : Rat
deriving DecidableEq, Repr

/-- One service entry (app.py lines 243-268). -/
structure Service where
  lineItemObjectId : String
  serviceType : String
  serviceFrequency : String
  schedule : Week
  inputs : List InputItem
  productivityOverride : Option Cell
  costAdjustments : CostAdjustments
  equipment : List EquipmentEntry
  dayporterHours : Week
  dayporterHourlyWageAdjustment : Cell
  supervisorHours : Week
deriving DecidableEq, Repr

/-- The `location` block of a building. -/
structure Location where
  state : Cell
  postalCode : String
  address : Cell
  city : Cell
  country : String
deriving DecidableEq, Repr

/-- The `buildingDetails` block of a building. -/
structure BuildingDetails where
  totalSquareFootage : Cell
  cleanableSquareFootage : Cell
deriving DecidableEq, Repr

/-- One building of the output document (app.py lines 226-270). -/
structure Building where
  buildingRecordId : String
  buildingId : String
  buildingName : String
  facilityType : Cell
  location : Location
  buildingDetails : BuildingDetails
  services : List Service
deriving DecidableEq, Repr

/-- The output document (app.py lines 275-279). -/
structure Deal where
  dealRecordId : String
  customerRecordId : String
  buildings : List Building
deriving DecidableEq, Repr

/-- The `contract_terms_map` lookup (app.py lines 167-170) with default `''`:
a Python dict whose keys are the strings and ints 12/24/36/60; numeric key
lookup unifies int and float (hash/eq equality), string keys match exactly. -/
def contractTermsMap (c : Cell) : String :=
  match c with
  | .str s => if s = "12" ∨ s = "24" ∨ s = "36" ∨ s = "60" then s else ""
  | .int n =>
    if n = 12 then "12" else if n = 24 then "24"
    else if n = 36 then "36" else if n = 60 then "60" else ""
  | .float q =>
    if q = 12 then "12" else if q = 24 then "24"
    else if q = 36 then "36" else if q = 60 then "60" else ""
  | .null => ""

/-- Equipment list of a row (app.py lines 173-183): one entry per rental
slot whose equipment-type value is truthy, slot 1 before slot 2. -/
def equipmentOf (rec : Record) : List EquipmentEntry :=
  (if pyTruthy (rget rec "equipment_rental_1") then
    [{ equipmentType := rget rec "equipment_rental_1",
       contractTerm := contractTermsMap (rget rec "contract_terms_1") }]
  else []) ++
  (if pyTruthy (rget rec "equipment_rental_2") then
    [{ equipmentType := rget rec "equipment_rental_2",
       contractTerm := contractTermsMap (rget rec "contract_terms_2") }]
  else [])

/-- The weekly cleaning schedule block (app.py lines 248-254). -/
def scheduleOf (rec : Record) : Week :=
  ⟨rget rec "sun", rget rec "mon", rget rec "tue", rget rec "wed",
   rget rec "thu", rget rec "fri", rget rec "sat"⟩

/-- The day-porter hours block (app.py lines 186-194). -/
def dayporterHoursOf (rec : Record) : Week :=
  ⟨rget rec "dp_sun", rget rec "dp_mon", rget rec "dp_tue", rget rec "dp_wed",
   rget rec "dp_thu", rget rec "dp_fri", rget rec "dp_sat"⟩

/-- The supervisor hours block (app.py lines 197-205). -/
def supervisorHoursOf (rec : Record) : Week :=
  ⟨rget rec "sup_sun", rget rec "sup_mon", rget rec "sup_tue", rget rec "sup_wed",
   rget rec "sup_thu", rget rec "sup_fri", rget rec "sup_sat"⟩

/-- Productivity override (app.py lines 208-212): `{"value": v}` when the
alternate-productivity value is truthy, else the empty object. -/
def productivityOverrideOf (rec : Record) : Option Cell :=
  if pyTruthy (rget rec "alternate_productivity") then
    some (rget rec "alternate_productivity")
  else none

/-- The fixed weeks-per-month constant `4.33` (app.py line 216). -/
def weeksPerMonth : Rat := mkRat 433 100

/-- Weekly additional costs (app.py line 217):
`monthly / weeks_per_month if weeks_per_month > 0 else 0`; `none` models the
`TypeError` Python raises when the monthly value is not a number. -/
def weeklyOf (c : Cell) : Option Rat :=
  (cellRat c).map (fun m => if 0 < weeksPerMonth then m / weeksPerMonth else 0)

/-- Postal code of a building (app.py line 233):
`str(int(zip)) if zip else ""`; `none` models the exception raised by
`int()` on a truthy non-numeric value. -/
def postalCodeOf (z : Cell) : Option String :=
  if pyTruthy z then (pyIntCell z).map (fun n => toString n) else some ""

/-- One building assembled from one record (app.py lines 165-270), with the
two fallible operations made explicit. -/
def mkBuilding (cust : String) (rec : Record) : Except String Building :=
  match postalCodeOf (rget rec "zip"), weeklyOf (rget rec "additional_costs") with
  | some pc, some w =>
    .ok
      { buildingRecordId := "BLDG_" ++ pyStr (rget rec "building_id")
        buildingId := pyStr (rget rec "building_id")
        buildingName := cust ++ " - " ++ pyStr (rget rec "building_id")
        facilityType := rget rec "building_type"
        location :=
          { state := rget rec "state"
            postalCode := pc
            address := rget rec "address"
            city := rget rec "city"
            country := "USA" }
        buildingDetails :=
          { totalSquareFootage := rget rec "total_sq_ft"
            cleanableSquareFootage := rget rec "cleanable_sq_ft" }
        services :=
          [{ lineItemObjectId := "LINE_" ++ pyStr (rget rec "building_id")
             serviceType := "RJS"
             serviceFrequency := "weekly"
             schedule := scheduleOf rec
             inputs := [{ itemName := "cleanableSquareFootage",
                          itemValue := rget rec "cleanable_sq_ft" }]
             productivityOverride := productivityOverrideOf rec
             costAdjustments := { hourlyWageAdjustment := Cell.int 0,
                                  weeklyAdditionalCosts := w }
             equipment := equipmentOf rec
             dayporterHours := dayporterHoursOf rec
             dayporterHourlyWageAdjustment := rget rec "wage_adjustment"
             supervisorHours := supervisorHoursOf rec }] }
  | _, _ => .error "TypeError"

/-- Effectful map over a list, aborting at the first error, as the
building-assembly loop does. -/
def mapExcept {α β : Type} (f : α → Except String β) : List α → Except String (List β)
  | [] => .ok []
  | a :: as =>
    match f a with
    | .error e => .error e
    | .ok b =>
      match mapExcept f as with
      | .error e => .error e
      | .ok bs => .ok (b :: bs)

/-- The mapper (`convert_to_api_json`, app.py lines 153-281): `none` for an
empty row set (Python returns `None`), one building per record otherwise.
The wall-clock timestamp of `deal_record_id` is an explicit parameter. -/
def convert_to_api_json (customerName ts : String) (rows : List Record) :
    Except String (Option Deal) :=
  if rows.isEmpty then .ok none
  else
    match mapExcept (mkBuilding customerName) rows with
    | .error e => .error e
    | .ok bs =>
      .ok (some
        { dealRecordId := "DEAL_" ++ customerName ++ "_" ++ ts
          customerRecordId := "CUST_" ++ customerName
          buildings := bs })

/-! Spec-side predicates for the row-acceptance claim, written from the
spec's words rather than from the code, to compare against `rowAccepted`. -/

/-- Modelled from the spec: a cell that "is non-empty" — it has a value and
that value is not the empty string. -/
def cellNonEmpty : Cell → Bool
  | .null => false
  | .str s => decide (s ≠ "")
  | _ => true

/-- Modelled from the spec: a building-id cell that "is non-empty after
trimming" — it has a value whose string form strips to something non-empty. -/
def claimBuildingIdOk : Cell → Bool
  | .null => false
  | c => decide (pyStrip (pyStr c) ≠ "")

/-- Modelled from the spec: a cleanable-square-footage cell that "is present
and non-zero" — it has a non-blank value that is not numeric zero. -/
def claimCleanableOk (c : Cell) : Bool :=
  (match c with
   | .null => false
   | .str s => decide (s ≠ "")
   | _ => true) && !(pyEqZero c)

/-- Row acceptance as the claim words it: customer-name cell non-empty,
building-id cell non-empty after trimming, cleanable cell present and
non-zero. -/
def claimAccepted (sheet : String → Nat → Cell) (row : Nat) : Bool :=
  cellNonEmpty (sheet "B" row) &&
  claimBuildingIdOk (sheet "C" row) &&
  claimCleanableOk (sheet "K" row)

/-- Row acceptance as amended: the customer-name and building-id cells must
moreover be truthy, which additionally excludes cells holding numeric zero. -/
def claimAcceptedAmended (sheet : String → Nat → Cell) (row : Nat) : Bool :=
  pyTruthy (sheet "B" row) &&
  (pyTruthy (sheet "C" row) && claimBuildingIdOk (sheet "C" row)) &&
  claimCleanableOk (sheet "K" row)

/-- Concrete worksheet for witnesses, after the spec's example scenario:
row 4 has customer "Acme", building id "B1", a facility type with
significant spacing, zip 12345, cleanable footage 5000, Tuesday schedule 2,
equipment rental "Vacuum" with 24-month terms, and monthly additional
costs 433. -/
def sampleSheet : String → Nat → Cell := fun col row =>
  if row = 4 then
    if col = "B" then .str "Acme"
    else if col = "C" then .str "B1"
    else if col = "G" then .int 12345
    else if col = "I" then .str " Office "
    else if col = "K" then .int 5000
    else if col = "T" then .int 2
    else if col = "AB" then .int 433
    else if col = "AH" then .str "Vacuum"
    else if col = "AI" then .int 24
    else .null
  else .null

/-- The record the loader extracts from row 4 of `sampleSheet`. -/
def sampleRec : Record := buildRecord sampleSheet 4

/-- Concrete worksheet whose row 4 has a building-id cell holding the
number 0: customer "Acme", building id 0, cleanable footage 5000. -/
def zeroIdSheet : String → Nat → Cell := fun col row =>
  if row = 4 then
    if col = "B" then .str "Acme"
    else if col = "C" then .int 0
    else if col = "K" then .int 5000
    else .null
  else .null

example : rowAccepted sampleSheet 4 = true := by decide
example : load_excel_data sampleSheet 4 = [sampleRec] := by decide
example : rget sampleRec "zip" = .int 12345 := by decide
example : rget sampleRec "building_type" = .str " Office " := by decide
example : rget sampleRec "city" = .str "" := by decide
example : rget sampleRec "tue" = .int 2 := by decide
example : claimAccepted zeroIdSheet 4 = true := by decide
example : load_excel_data zeroIdSheet 4 = [] := by decide
example : parseFloat "3.5" = some (mkRat 7 2) := by decide
example : parseFloat "abc" = none := by decide
example : parseFloat "-2e3" = some (mkRat (-2000) 1) := by decide
example : parseFloat ".5" = some (mkRat 1 2) := by decide
example : parseFloat "" = none := by decide

/-! Helper lemmas shared by the claim theorems. -/

/-- The scan loop's row numbers are exactly those between the fixed start
row 4 and the lesser of the reported last row and the 100-row cap. -/
lemma mem_scannedRows (maxRow row : Nat) :
    row ∈ scannedRows maxRow ↔ 4 ≤ row ∧ row ≤ maxRow ∧ row ≤ 100 := by
  unfold scannedRows
  rw [List.mem_range'_1]
  omega

/-- The code's row-acceptance test coincides with the amended spec
predicate. -/
lemma rowAccepted_eq_amended (sheet : String → Nat → Cell) (row : Nat) :
    rowAccepted sheet row = claimAcceptedAmended sheet row := by
  unfold rowAccepted claimAcceptedAmended
  congr 1
  · congr 1
    cases h : sheet "C" row <;> simp [pyTruthy, claimBuildingIdOk, pyStr]
  · cases h : sheet "K" row <;>
      simp [pyTruthy, claimCleanableOk, pyEqZero]

/-- Numeric fields are not string-defaulted fields. -/
lemma numeric_not_string : ∀ f ∈ numericFields, f ∉ stringFields := by decide

/-- Numeric fields are not the facility-type field. -/
lemma numeric_not_btype : ∀ f ∈ numericFields, f ≠ "building_type" := by decide

/-- The numeric-coercion pass never outputs a string or `None` when fed the
cleanup of a cell for a non-string-defaulted field. -/
lemma fieldValue_isNum (f : String) (hf : f ∈ numericFields) (raw : Cell) :
    isNum (fieldValue f raw) = true := by
  unfold fieldValue
  rw [if_pos hf]
  cases raw with
  | null =>
    simp only [cleanupField, if_neg (numeric_not_string f hf)]
    rfl
  | str s =>
    simp only [cleanupField, if_neg (numeric_not_btype f hf)]
    simp only [coerceNumeric]
    by_cases h : pyStrip s = ""
    · simp [h, isNum]
    · simp only [h, if_false]
      cases hp : parseFloat (pyStrip s) <;> simp [isNum]
  | int n => rfl
  | float q => rfl

/-- Lookup of `zip` in a freshly built record. -/
lemma rget_buildRecord_zip (sheet : String → Nat → Cell) (row : Nat) :
    rget (buildRecord sheet row) "zip" = fieldValue "zip" (sheet "G" row) := rfl

/-- Lookup of `additional_costs` in a freshly built record. -/
lemma rget_buildRecord_addc (sheet : String → Nat → Cell) (row : Nat) :
    rget (buildRecord sheet row) "additional_costs" =
      fieldValue "additional_costs" (sheet "AB" row) := rfl

/-- Lookup of `building_type` in a freshly built record. -/
lemma rget_buildRecord_btype (sheet : String → Nat → Cell) (row : Nat) :
    rget (buildRecord sheet row) "building_type" =
      fieldValue "building_type" (sheet "I" row) := rfl

/-- Elements of a successful `mapExcept` run: same length, and pointwise
the image of the corresponding input. -/
lemma mapExcept_ok {α β : Type} (f : α → Except String β) :
    ∀ (l : List α) (bs : List β), mapExcept f l = .ok bs →
      bs.length = l.length ∧
      ∀ i (h1 : i < l.length) (h2 : i < bs.length),
        f (l.get ⟨i, h1⟩) = .ok (bs.get ⟨i, h2⟩) := by
  intro l
  induction l with
  | nil =>
    intro bs h
    unfold mapExcept at h
    cases h
    exact ⟨rfl, fun i h1 _ => absurd h1 (by simp)⟩
  | cons a as ih =>
    intro bs h
    unfold mapExcept at h
    cases hfa : f a with
    | error e => rw [hfa] at h; cases h
    | ok b =>
      rw [hfa] at h
      cases hm : mapExcept f as with
      | error e => rw [hm] at h; cases h
      | ok bs' =>
        rw [hm] at h
        cases h
        obtain ⟨hl, hg⟩ := ih bs' hm
        refine ⟨by simp [hl], ?_⟩
        intro i h1 h2
        match i with
        | 0 => simpa using hfa
        | Nat.succ j => simpa using hg j (by simpa using h1) (by simpa using h2)

/-- When every element maps successfully, the whole `mapExcept` run
succeeds. -/
lemma mapExcept_total {α β : Type} (f : α → Except String β) :
    ∀ l : List α, (∀ a ∈ l, ∃ b, f a = .ok b) → ∃ bs, mapExcept f l = .ok bs := by
  intro l
  induction l with
  | nil => exact fun _ => ⟨[], rfl⟩
  | cons a as ih =>
    intro h
    obtain ⟨b, hb⟩ := h a (by simp)
    obtain ⟨bs, hbs⟩ := ih (fun x hx => h x (by simp [hx]))
    exact ⟨b :: bs, by unfold mapExcept; rw [hb, hbs]⟩

/-- Shape of a successfully assembled building: every claimed field
projection, in terms of the source record. -/
lemma mkBuilding_ok_spec (cust : String) (rec : Record) (b : Building)
    (h : mkBuilding cust rec = .ok b) :
    b.buildingId = pyStr (rget rec "building_id") ∧
    b.facilityType = rget rec "building_type" ∧
    (pyTruthy (rget rec "zip") = false → b.location.postalCode = "") ∧
    ∃ s, b.services = [s] ∧
      s.equipment = equipmentOf rec ∧
      s.costAdjustments.hourlyWageAdjustment = Cell.int 0 ∧
      s.dayporterHourlyWageAdjustment = rget rec "wage_adjustment" ∧
      ∀ q, cellRat (rget rec "additional_costs") = some q →
        s.costAdjustments.weeklyAdditionalCosts = q / weeksPerMonth := by
  unfold mkBuilding at h
  cases hp : postalCodeOf (rget rec "zip") with
  | none => rw [hp] at h; cases h
  | some pc =>
    cases hw : weeklyOf (rget rec "additional_costs") with
    | none => rw [hp, hw] at h; cases h
    | some w =>
      rw [hp, hw] at h
      cases h
      refine ⟨rfl, rfl, ?_, ?_⟩
      · intro hz
        unfold postalCodeOf at hp
        rw [hz] at hp
        simpa using hp.symm
      · refine ⟨_, rfl, rfl, rfl, rfl, ?_⟩
        intro q hq
        unfold weeklyOf at hw
        rw [hq] at hw
        simp only [Option.map_some'] at hw
        have hpos : (0 : Rat) < weeksPerMonth := by norm_num [weeksPerMonth]
        rw [if_pos hpos] at hw
        simpa using hw.symm

/-- Assembly cannot fail on a record whose `zip` and `additional_costs`
fields hold numbers. -/
lemma mkBuilding_total (cust : String) (rec : Record)
    (hz : isNum (rget rec "zip") = true)
    (ha : isNum (rget rec "additional_costs") = true) :
    ∃ b, mkBuilding cust rec = .ok b := by
  have h1 : ∃ pc, postalCodeOf (rget rec "zip") = some pc := by
    unfold postalCodeOf
    by_cases ht : pyTruthy (rget rec "zip")
    · rw [if_pos ht]
      cases hc : rget rec "zip" with
      | null => rw [hc] at hz; cases hz
      | str s => rw [hc] at hz; cases hz
      | int n => exact ⟨toString n, rfl⟩
      | float q => exact ⟨toString (ratTrunc q), rfl⟩
    · exact ⟨"", by rw [if_neg ht]⟩
  have h2 : ∃ w, weeklyOf (rget rec "additional_costs") = some w := by
    unfold weeklyOf
    cases hc : rget rec "additional_costs" with
    | null => rw [hc] at ha; cases ha
    | str s => rw [hc] at ha; cases ha
    | int n => exact ⟨_, rfl⟩
    | float q => exact ⟨_, rfl⟩
  obtain ⟨pc, hp⟩ := h1
  obtain ⟨w, hw⟩ := h2
  unfold mkBuilding
  rw [hp, hw]
  exact ⟨_, rfl⟩

/-- Records produced by the loader carry numbers in every numeric-list
field (stated over the record's entries). -/
lemma loaded_entries_isNum (sheet : String → Nat → Cell) (maxRow : Nat)
    (rec : Record) (hrec : rec ∈ load_excel_data sheet maxRow) :
    ∀ p ∈ rec, p.1 ∈ numericFields → isNum p.2 = true := by
  unfold load_excel_data at hrec
  obtain ⟨row, _, hb⟩ := List.mem_map.mp hrec
  subst hb
  intro p hp hnum
  unfold buildRecord at hp
  obtain ⟨pc, _, hpc⟩ := List.mem_map.mp hp
  cases hpc
  exact fieldValue_isNum pc.1 hnum (sheet pc.2 row)

/-- Assembly succeeds on every record the loader produces. -/
lemma loaded_mkBuilding_ok (sheet : String → Nat → Cell) (maxRow : Nat)
    (cust : String) (rec : Record) (hrec : rec ∈ load_excel_data sheet maxRow) :
    ∃ b, mkBuilding cust rec = .ok b := by
  unfold load_excel_data at hrec
  obtain ⟨row, _, hb⟩ := List.mem_map.mp hrec
  subst hb
  refine mkBuilding_total cust _ ?_ ?_
  · rw [rget_buildRecord_zip]
    exact fieldValue_isNum _ (by decide) _
  · rw [rget_buildRecord_addc]
    exact fieldValue_isNum _ (by decide) _

/-- Shape of a successful conversion that yields a document: the row list
was non-empty, and the buildings are the pointwise images of the rows. -/
lemma convert_ok_spec (cust ts : String) (rows : List Record) (d : Deal)
    (h : convert_to_api_json cust ts rows = .ok (some d)) :
    rows ≠ [] ∧ d.buildings.length = rows.length ∧
    ∀ i (h1 : i < rows.length) (h2 : i < d.buildings.length),
      mkBuilding cust (rows.get ⟨i, h1⟩) = .ok (d.buildings.get ⟨i, h2⟩) := by
  unfold convert_to_api_json at h
  by_cases he : rows.isEmpty
  · rw [if_pos he] at h; cases h
  · rw [if_neg he] at h
    cases hm : mapExcept (mkBuilding cust) rows with
    | error e => rw [hm] at h; cases h
    | ok bs =>
      rw [hm] at h
      cases h
      obtain ⟨hl, hg⟩ := mapExcept_ok (mkBuilding cust) rows bs hm
      exact ⟨by simpa using he, hl, hg⟩

/-- A conversion of loader output never raises: it returns `none` for an
empty row set and a document otherwise. -/
lemma convert_loaded_total (sheet : String → Nat → Cell) (maxRow : Nat)
    (cust ts : String) :
    ∃ r, convert_to_api_json cust ts (load_excel_data sheet maxRow) = .ok r := by
  unfold convert_to_api_json
  by_cases he : (load_excel_data sheet maxRow).isEmpty
  · exact ⟨none, by rw [if_pos he]⟩
  · rw [if_neg he]
    obtain ⟨bs, hbs⟩ := mapExcept_total (mkBuilding cust) (load_excel_data sheet maxRow)
      (fun rec hrec => loaded_mkBuilding_ok sheet maxRow cust rec hrec)
    rw [hbs]
    exact ⟨_, rfl⟩

/-! Claim theorems. -/

/-- C1 (counterexample): a scanned row whose customer-name cell is
non-empty ("Acme"), whose building-id cell is non-empty after trimming (the
number 0, whose string form "0" strips to "0"), and whose
cleanable-square-footage cell is present and non-zero (5000), is
nevertheless skipped by the loader, because the code first requires the
building-id cell to be truthy and the number 0 is falsy. -/
theorem c1_counterexample :
    claimAccepted zeroIdSheet 4 = true ∧ 4 ∈ scannedRows 4 ∧
    load_excel_data zeroIdSheet 4 = [] := by
  refine ⟨by decide, by decide, by decide⟩

/-- C1 (amended): a scanned row contributes a record to the result sequence
iff its customer-name cell is truthy, its building-id cell is truthy and
non-empty after trimming, and its cleanable-square-footage cell is present
and non-zero; the result is exactly one full record per accepted row, in
scan order, so a skipped row contributes nothing and never reaches the
mapper. -/
theorem c1_theorem (sheet : String → Nat → Cell) (maxRow row : Nat)
    (hrow : row ∈ scannedRows maxRow) :
    (row ∈ acceptedRows sheet maxRow ↔ claimAcceptedAmended sheet row = true) ∧
    load_excel_data sheet maxRow =
      (acceptedRows sheet maxRow).map (fun r => buildRecord sheet r) := by
  refine ⟨?_, rfl⟩
  unfold acceptedRows
  rw [List.mem_filter, rowAccepted_eq_amended]
  exact ⟨fun h => h.2, fun h => ⟨hrow, h⟩⟩

/-- C1 witness: the amended acceptance criterion instantiated on the sample
sheet at its scanned row 4. -/
theorem c1_witness :
    (4 ∈ acceptedRows sampleSheet 4 ↔ claimAcceptedAmended sampleSheet 4 = true) ∧
    load_excel_data sampleSheet 4 =
      (acceptedRows sampleSheet 4).map (fun r => buildRecord sampleSheet r) :=
  c1_theorem sampleSheet 4 4 (by decide)

/-- C2: when the loader produced at least one record, the mapper succeeds
and emits exactly one building per record, in the same order, each carrying
the string form of its record's building-id field as `buildingId`. -/
theorem c2_theorem (sheet : String → Nat → Cell) (maxRow : Nat) (cust ts : String)
    (hne : load_excel_data sheet maxRow ≠ []) :
    ∃ d, convert_to_api_json cust ts (load_excel_data sheet maxRow) = .ok (some d) ∧
      d.buildings.length = (load_excel_data sheet maxRow).length ∧
      ∀ i (h1 : i < (load_excel_data sheet maxRow).length) (h2 : i < d.buildings.length),
        (d.buildings.get ⟨i, h2⟩).buildingId =
          pyStr (rget ((load_excel_data sheet maxRow).get ⟨i, h1⟩) "building_id") := by
  obtain ⟨bs, hbs⟩ := mapExcept_total (mkBuilding cust) (load_excel_data sheet maxRow)
    (fun rec hrec => loaded_mkBuilding_ok sheet maxRow cust rec hrec)
  have hd : ∃ d, convert_to_api_json cust ts (load_excel_data sheet maxRow) = .ok (some d) := by
    unfold convert_to_api_json
    rw [if_neg (by simpa using hne), hbs]
    exact ⟨_, rfl⟩
  obtain ⟨d, hd⟩ := hd
  obtain ⟨_, hl, hg⟩ := convert_ok_spec cust ts _ d hd
  refine ⟨d, hd, hl, ?_⟩
  intro i h1 h2
  exact (mkBuilding_ok_spec cust _ _ (hg i h1 h2)).1

/-- C2 witness: the sample sheet loads one record and converts to a
document with one building whose id is "B1". -/
theorem c2_witness :
    ∃ d, convert_to_api_json "Acme" "T" (load_excel_data sampleSheet 4) = .ok (some d) ∧
      d.buildings.length = (load_excel_data sampleSheet 4).length ∧
      ∀ i (h1 : i < (load_excel_data sampleSheet 4).length) (h2 : i < d.buildings.length),
        (d.buildings.get ⟨i, h2⟩).buildingId =
          pyStr (rget ((load_excel_data sampleSheet 4).get ⟨i, h1⟩) "building_id") :=
  c2_theorem sampleSheet 4 "Acme" "T" (by decide)

/-- C3: the loader's cleanup trims every string-valued field except
`building_type`, which is preserved byte-for-byte (also end-to-end into the
loaded record); a missing string-typed field becomes the empty string and a
missing other field becomes 0. -/
theorem c3_theorem :
    (∀ s, cleanupField "building_type" (.str s) = .str s) ∧
    (∀ f s, f ≠ "building_type" → cleanupField f (.str s) = .str (pyStrip s)) ∧
    (∀ f ∈ stringFields, cleanupField f .null = .str "") ∧
    (∀ f, f ∉ stringFields → cleanupField f .null = .int 0) ∧
    (∀ sheet row s, sheet "I" row = .str s →
      rget (buildRecord sheet row) "building_type" = .str s) := by
  refine ⟨fun s => by simp [cleanupField], ?_, ?_, ?_, ?_⟩
  · intro f s h
    simp [cleanupField, h]
  · intro f hf
    simp [cleanupField, hf]
  · intro f hf
    simp [cleanupField, hf]
  · intro sheet row s h
    rw [rget_buildRecord_btype, h]
    simp [fieldValue, cleanupField, numericFields]

/-- C3 witness: concrete instances of the cleanup policy, including the
facility type with significant spacing surviving into the loaded record. -/
theorem c3_witness :
    cleanupField "building_type" (.str " Office ") = .str " Office " ∧
    cleanupField "city" (.str " x ") = .str "x" ∧
    cleanupField "city" .null = .str "" ∧
    cleanupField "zip" .null = .int 0 ∧
    rget (buildRecord sampleSheet 4) "building_type" = .str " Office " :=
  ⟨c3_theorem.1 " Office ",
   c3_theorem.2.1 "city" " x " (by decide),
   c3_theorem.2.2.1 "city" (by decide),
   c3_theorem.2.2.2.1 "zip" (by decide),
   c3_theorem.2.2.2.2 sampleSheet 4 " Office " (by decide)⟩

/-- C4: for every field in the numeric list, the loaded value of a string
cell is the coercion of its trimmed content, where coercion parses the
string as a float, yields 0 on parse failure (such as "abc") without
raising, and passes already-numeric values through unchanged. -/
theorem c4_theorem (field : String) (hf : field ∈ numericFields) :
    (∀ s, fieldValue field (.str s) = coerceNumeric (.str (pyStrip s))) ∧
    (∀ s q, parseFloat s = some q → coerceNumeric (.str s) = .float q) ∧
    (∀ s, parseFloat s = none → coerceNumeric (.str s) = .int 0) ∧
    coerceNumeric (.str "abc") = .int 0 ∧
    (∀ n, coerceNumeric (.int n) = .int n) ∧
    (∀ q, coerceNumeric (.float q) = .float q) := by
  refine ⟨?_, ?_, ?_, by decide, fun n => rfl, fun q => rfl⟩
  · intro s
    unfold fieldValue
    simp only [cleanupField, if_neg (numeric_not_btype field hf), if_pos hf]
  · intro s q h
    have he : parseFloat "" = none := by decide
    by_cases hs : s = ""
    · subst hs
      rw [he] at h
      cases h
    · simp only [coerceNumeric]
      rw [if_neg hs, h]
  · intro s h
    simp only [coerceNumeric]
    by_cases hs : s = ""
    · rw [if_pos hs]
    · rw [if_neg hs, h]

/-- C4 witness: the schedule field `sun` given " 3.5 " loads as the float
7/2, "abc" coerces to 0, and a numeric value passes through. -/
theorem c4_witness :
    fieldValue "sun" (.str " 3.5 ") = .float (mkRat 7 2) ∧
    coerceNumeric (.str "abc") = .int 0 ∧
    coerceNumeric (.int 7) = .int 7 := by
  have h := c4_theorem "sun" (by decide)
  refine ⟨?_, h.2.2.2.1, h.2.2.2.2.1 7⟩
  rw [h.1]
  exact h.2.1 (pyStrip " 3.5 ") (mkRat 7 2) (by decide)

/-- Cell values accepted by the contract-terms table: the numeric and
string forms of 12, 24, 36 and 60. -/
def termCells : List Cell :=
  [.int 12, .int 24, .int 36, .int 60,
   .float 12, .float 24, .float 36, .float 60,
   .str "12", .str "24", .str "36", .str "60"]

/-- C5: a service's equipment list has one entry per truthy rental slot, in
slot order, each entry pairing the slot's equipment type with the mapped
contract term; the term map sends numeric and string forms of 12/24/36/60
to their string form and everything else (such as 99) to the empty string
without error. -/
theorem c5_theorem :
    (∀ cust rec b, mkBuilding cust rec = .ok b →
      ∃ s, b.services = [s] ∧ s.equipment = equipmentOf rec) ∧
    (∀ rec, (equipmentOf rec).length =
      (if pyTruthy (rget rec "equipment_rental_1") then 1 else 0) +
      (if pyTruthy (rget rec "equipment_rental_2") then 1 else 0)) ∧
    (∀ rec, pyTruthy (rget rec "equipment_rental_1") = true →
      (equipmentOf rec).head? = some
        { equipmentType := rget rec "equipment_rental_1",
          contractTerm := contractTermsMap (rget rec "contract_terms_1") }) ∧
    (∀ n : Int, n = 12 ∨ n = 24 ∨ n = 36 ∨ n = 60 →
      contractTermsMap (.int n) = toString n ∧
      contractTermsMap (.float (n : Rat)) = toString n ∧
      contractTermsMap (.str (toString n)) = toString n) ∧
    contractTermsMap (.int 99) = "" ∧
    (∀ c, c ∉ termCells → contractTermsMap c = "") := by
  refine ⟨?_, ?_, ?_, ?_, by decide, ?_⟩
  · intro cust rec b h
    obtain ⟨_, _, _, s, hs, heq, _⟩ := mkBuilding_ok_spec cust rec b h
    exact ⟨s, hs, heq⟩
  · intro rec
    unfold equipmentOf
    by_cases h1 : pyTruthy (rget rec "equipment_rental_1") <;>
      by_cases h2 : pyTruthy (rget rec "equipment_rental_2") <;>
      simp [h1, h2]
  · intro rec h1
    unfold equipmentOf
    rw [if_pos h1]
    simp
  · intro n hn
    rcases hn with rfl | rfl | rfl | rfl <;>
      exact ⟨by decide, by decide, by decide⟩
  · intro c hc
    cases c with
    | null => rfl
    | str s =>
      simp only [contractTermsMap]
      split_ifs with h
      · exfalso
        apply hc
        rcases h with rfl | rfl | rfl | rfl <;> simp [termCells]
      · rfl
    | int n =>
      simp only [contractTermsMap]
      split_ifs with h1 h2 h3 h4
      · exact absurd (h1 ▸ (by simp [termCells] : Cell.int 12 ∈ termCells)) hc
      · exact absurd (h2 ▸ (by simp [termCells] : Cell.int 24 ∈ termCells)) hc
      · exact absurd (h3 ▸ (by simp [termCells] : Cell.int 36 ∈ termCells)) hc
      · exact absurd (h4 ▸ (by simp [termCells] : Cell.int 60 ∈ termCells)) hc
      · rfl
    | float q =>
      simp only [contractTermsMap]
      split_ifs with h1 h2 h3 h4
      · exact absurd (h1 ▸ (by simp [termCells] : Cell.float 12 ∈ termCells)) hc
      · exact absurd (h2 ▸ (by simp [termCells] : Cell.float 24 ∈ termCells)) hc
      · exact absurd (h3 ▸ (by simp [termCells] : Cell.float 36 ∈ termCells)) hc
      · exact absurd (h4 ▸ (by simp [termCells] : Cell.float 60 ∈ termCells)) hc
      · rfl

/-- C5 witness: the sample building carries one equipment entry
("Vacuum", term 24 mapped to "24"), and 99 maps to the empty string. -/
theorem c5_witness :
    (mkBuilding "Acme" sampleRec).toOption.map
        (fun b => b.services.map (fun s => s.equipment)) =
      some [[{ equipmentType := Cell.str "Vacuum", contractTerm := "24" }]] ∧
    contractTermsMap (.int 99) = "" := by
  refine ⟨?_, c5_theorem.2.2.2.2.1⟩
  cases h : mkBuilding "Acme" sampleRec with
  | error e =>
    have hok : (mkBuilding "Acme" sampleRec).toOption.isSome = true := by decide
    rw [h] at hok
    simp [Except.toOption] at hok
  | ok b =>
    obtain ⟨s, hs, heq⟩ := c5_theorem.1 "Acme" sampleRec b h
    simp only [Except.toOption, Option.map_some', hs, List.map_cons, List.map_nil, heq]
    decide

/-- C6: the emitted service's cost-adjustment block always carries
`hourlyWageAdjustment = 0`, while the same service's
`dayporterHourlyWageAdjustment` is the record's raw wage-adjustment
value. -/
theorem c6_theorem (cust : String) (rec : Record) (b : Building)
    (h : mkBuilding cust rec = .ok b) :
    ∃ s, b.services = [s] ∧
      s.costAdjustments.hourlyWageAdjustment = Cell.int 0 ∧
      s.dayporterHourlyWageAdjustment = rget rec "wage_adjustment" := by
  obtain ⟨_, _, _, s, hs, _, h0, hw, _⟩ := mkBuilding_ok_spec cust rec b h
  exact ⟨s, hs, h0, hw⟩

/-- C6 witness: on the sample record both wage fields evaluate concretely,
the cost-adjustment one to 0. -/
theorem c6_witness :
    (mkBuilding "Acme" sampleRec).toOption.map
        (fun b => b.services.map
          (fun s => (s.costAdjustments.hourlyWageAdjustment,
                     s.dayporterHourlyWageAdjustment))) =
      some [(Cell.int 0, Cell.int 0)] := by
  cases h : mkBuilding "Acme" sampleRec with
  | error e =>
    have hok : (mkBuilding "Acme" sampleRec).toOption.isSome = true := by decide
    rw [h] at hok
    simp [Except.toOption] at hok
  | ok b =>
    obtain ⟨s, hs, h0, hw⟩ := c6_theorem "Acme" sampleRec b h
    simp only [Except.toOption, Option.map_some', hs, List.map_cons, List.map_nil, h0, hw]
    decide

/-- C7: the emitted `weeklyAdditionalCosts` is the record's monthly
additional costs divided by the fixed constant 4.33 = 433/100; in
particular a monthly value of 433 yields exactly 100. -/
theorem c7_theorem (cust : String) (rec : Record) (b : Building) (q : Rat)
    (h : mkBuilding cust rec = .ok b)
    (hq : cellRat (rget rec "additional_costs") = some q) :
    weeksPerMonth = 433 / 100 ∧
    ∃ s, b.services = [s] ∧
      s.costAdjustments.weeklyAdditionalCosts = q / weeksPerMonth ∧
      (q = 433 → s.costAdjustments.weeklyAdditionalCosts = 100) := by
  have hwpm : weeksPerMonth = 433 / 100 := by
    unfold weeksPerMonth
    norm_num [Rat.mkRat_eq_div]
  obtain ⟨_, _, _, s, hs, _, _, _, hwk⟩ := mkBuilding_ok_spec cust rec b h
  refine ⟨hwpm, s, hs, hwk q hq, ?_⟩
  intro hq433
  rw [hwk q hq, hq433, hwpm]
  norm_num

/-- C7 witness: the sample record's monthly additional costs of 433 emit a
weekly value of exactly 100. -/
theorem c7_witness :
    (mkBuilding "Acme" sampleRec).toOption.map
        (fun b => b.services.map (fun s => s.costAdjustments.weeklyAdditionalCosts)) =
      some [(100 : Rat)] := by
  cases h : mkBuilding "Acme" sampleRec with
  | error e =>
    have hok : (mkBuilding "Acme" sampleRec).toOption.isSome = true := by decide
    rw [h] at hok
    simp [Except.toOption] at hok
  | ok b =>
    obtain ⟨_, s, hs, _, h100⟩ :=
      c7_theorem "Acme" sampleRec b 433 h (by decide)
    simp only [Except.toOption, Option.map_some', hs, List.map_cons, List.map_nil,
      h100 rfl]

/-- C8: an empty accepted-row set makes the mapper return no document,
while any produced document has as many buildings as there were rows and
hence never an empty buildings array. -/
theorem c8_theorem (cust ts : String) :
    convert_to_api_json cust ts [] = .ok none ∧
    ∀ rows d, convert_to_api_json cust ts rows = .ok (some d) →
      rows ≠ [] ∧ d.buildings.length = rows.length ∧ d.buildings ≠ [] := by
  refine ⟨rfl, ?_⟩
  intro rows d h
  obtain ⟨hne, hl, _⟩ := convert_ok_spec cust ts rows d h
  refine ⟨hne, hl, ?_⟩
  intro hnil
  apply hne
  rw [← List.length_eq_zero, ← hl, hnil]
  rfl

/-- C8 witness: the empty conversion yields no document, while the sample
sheet's conversion yields a document built from a non-empty row list. -/
theorem c8_witness :
    convert_to_api_json "Acme" "T" [] = .ok none ∧
    load_excel_data sampleSheet 4 ≠ [] := by
  have h8 := c8_theorem "Acme" "T"
  refine ⟨h8.1, ?_⟩
  have hshape : (match convert_to_api_json "Acme" "T" (load_excel_data sampleSheet 4) with
    | .ok (some _) => true
    | _ => false) = true := by decide
  cases h : convert_to_api_json "Acme" "T" (load_excel_data sampleSheet 4) with
  | error e => rw [h] at hshape; simp at hshape
  | ok o =>
    cases o with
    | none => rw [h] at hshape; simp at hshape
    | some d => exact (h8.2 (load_excel_data sampleSheet 4) d h).1

/-- C9: the scan visits exactly the rows from 4 up to the lesser of the
sheet's reported last row and the cap 100 (so it terminates), and every
accepted row lies in that range. -/
theorem c9_theorem (maxRow row : Nat) :
    (row ∈ scannedRows maxRow ↔ 4 ≤ row ∧ row ≤ maxRow ∧ row ≤ 100) ∧
    ∀ sheet, row ∈ acceptedRows sheet maxRow → row ∈ scannedRows maxRow := by
  refine ⟨mem_scannedRows maxRow row, ?_⟩
  intro sheet h
  exact (List.mem_filter.mp h).1

/-- C9 witness: row 4 is scanned under a last row of 7, and the sample
sheet's accepted row 4 is indeed a scanned row. -/
theorem c9_witness :
    (4 ∈ scannedRows 7 ↔ 4 ≤ 4 ∧ 4 ≤ 7 ∧ 4 ≤ 100) ∧ 4 ∈ scannedRows 4 :=
  ⟨(c9_theorem 7 4).1, (c9_theorem 4 4).2 sampleSheet (by decide)⟩

/-- C10: every numeric-list field of every loaded record holds a number
(in particular `zip` and `additional_costs`), the mapper is total on loader
output, and a falsy zip yields an empty postal code. -/
theorem c10_theorem (sheet : String → Nat → Cell) (maxRow : Nat) (cust ts : String) :
    (∀ rec ∈ load_excel_data sheet maxRow,
      ∀ p ∈ rec, p.1 ∈ numericFields → isNum p.2 = true) ∧
    (∀ rec ∈ load_excel_data sheet maxRow,
      isNum (rget rec "zip") = true ∧ isNum (rget rec "additional_costs") = true) ∧
    (∃ r, convert_to_api_json cust ts (load_excel_data sheet maxRow) = .ok r) ∧
    (∀ rec b, mkBuilding cust rec = .ok b →
      pyTruthy (rget rec "zip") = false → b.location.postalCode = "") ∧
    (∀ z, pyTruthy z = false → postalCodeOf z = some "") := by
  refine ⟨loaded_entries_isNum sheet maxRow, ?_, convert_loaded_total sheet maxRow cust ts, ?_, ?_⟩
  · intro rec hrec
    unfold load_excel_data at hrec
    obtain ⟨row, _, hb⟩ := List.mem_map.mp hrec
    subst hb
    rw [rget_buildRecord_zip, rget_buildRecord_addc]
    exact ⟨fieldValue_isNum _ (by decide) _, fieldValue_isNum _ (by decide) _⟩
  · intro rec b h hz
    exact (mkBuilding_ok_spec cust rec b h).2.2.1 hz
  · intro z hz
    unfold postalCodeOf
    rw [hz]
    rfl

/-- C10 witness: the sample sheet's record holds the number 12345 in its
zip entry, its conversion succeeds, and a record with a falsy (defaulted)
zip gets postal code "". -/
theorem c10_witness :
    isNum (Cell.int 12345) = true ∧
    (∃ r, convert_to_api_json "Acme" "T" (load_excel_data sampleSheet 4) = .ok r) ∧
    postalCodeOf (Cell.int 0) = some "" ∧
    (mkBuilding "Acme" (buildRecord zeroIdSheet 4)).toOption.map
        (fun b => b.location.postalCode) = some "" := by
  have h := c10_theorem sampleSheet 4 "Acme" "T"
  refine ⟨h.1 sampleRec (by decide) ("zip", Cell.int 12345) (by decide) (by decide),
          h.2.2.1, h.2.2.2.2 (Cell.int 0) (by decide), ?_⟩
  cases hmk : mkBuilding "Acme" (buildRecord zeroIdSheet 4) with
  | error e =>
    have hok : (mkBuilding "Acme" (buildRecord zeroIdSheet 4)).toOption.isSome = true := by
      decide
    rw [hmk] at hok
    simp [Except.toOption] at hok
  | ok b =>
    have hpc := h.2.2.2.1 (buildRecord zeroIdSheet 4) b hmk (by decide)
    simp [Except.toOption, hpc]

end Passport
